import Mathlib

/-
Verification development for the websocket lifecycle controller in
src/mangum/protocols/websockets.py (class WebSocketCycle).

Shallow embedding notes:
* Bytes are modelled as `List Nat`.
* ASGI messages (Python dicts such as {"type": ..., "bytes": ...}) are
  modelled as a tagged record with a type string and a byte payload.
* `asyncio.Queue` (FIFO, unbounded) is modelled as a `List Message`:
  `put` appends at the back, `get` pops the front, and `get` on an empty
  queue suspends forever within the invocation (the event loop has no
  other task that could ever wake it), which we model as `none`.
* The application task is modelled as a finite sequence of receive/send
  actions followed by either normal completion or a raised exception
  (WebSocketClosed, UnexpectedMessage, or any other BaseException).
* `loop.run_until_complete(asgi_task)` therefore either returns (the
  action sequence runs to completion) or hangs forever (`none`).
-/

namespace Mangum

/-- One ASGI websocket event: a type tag and a byte payload
(models the `typing.Dict[str, typing.Any]` messages of the source). -/
structure Message where
  type : String
  bytes : List Nat
deriving DecidableEq, Repr

/-- The Response dataclass from mangum.types: status, headers, body. -/
structure Response where
  status : Nat
  headers : List (String × String)
  body : List Nat
deriving DecidableEq, Repr

/-- The WsRequest input: we keep only the opaque ASGI scope, which the
controller passes through to the application unchanged. -/
structure WsRequest where
  scope : List (String × String)
deriving DecidableEq, Repr

/-- The WebSocketCycleState enum of the source
(CONNECTING, HANDSHAKE, RESPONSE, DISCONNECTING, CLOSED). -/
inductive WebSocketCycleState where
  | CONNECTING
  | HANDSHAKE
  | RESPONSE
  | DISCONNECTING
  | CLOSED
deriving DecidableEq, Repr

/-- The exceptions the `run` coroutine distinguishes: WebSocketClosed,
UnexpectedMessage, and the catch-all `except BaseException` branch. -/
inductive AppException where
  | webSocketClosed
  | unexpectedMessage
  | other
deriving DecidableEq, Repr

/-- One step of the application task: awaiting the receive capability or
awaiting the send capability with a message. -/
inductive AppAction where
  | recv
  | send (m : Message)
deriving DecidableEq, Repr

/-- A model of an ASGI application for one invocation: the sequence of
receive/send awaits it performs, then either normal completion
(`exception = none`) or a raised exception. -/
structure AppModel where
  actions : List AppAction
  exception : Option AppException
deriving DecidableEq, Repr

/-- The WebSocketCycle dataclass: the declared fields (request,
message_type, connection_id, state with default CONNECTING) together with
the attributes `__post_init__` adds (app_queue, body, response) and the
`initial_body` attribute set by `__call__`. -/
structure WebSocketCycle where
  request : WsRequest
  message_type : String
  connection_id : String
  state : WebSocketCycleState
  app_queue : List Message
  body : List Nat
  response : Response
  initial_body : Option (List Nat)
deriving DecidableEq, Repr

/-- Construction of a WebSocketCycle: the dataclass fields plus
`__post_init__`, which creates an empty asyncio queue, an empty body
buffer and `Response(200, [], b"")`. -/
def WebSocketCycle.postInit (request : WsRequest) (message_type : String)
    (connection_id : String) (state : WebSocketCycleState) : WebSocketCycle :=
  { request := request
    message_type := message_type
    connection_id := connection_id
    state := state
    app_queue := []
    body := []
    response := Response.mk 200 [] []
    initial_body := none }

/-- The receive capability: `await self.app_queue.get()`. Pops the front
of the FIFO queue; on an empty queue the caller suspends forever within
this invocation, modelled as `none`. -/
def WebSocketCycle.receive (c : WebSocketCycle) :
    Option (Message × WebSocketCycle) :=
  match c.app_queue with
  | [] => none
  | m :: rest => some (m, { c with app_queue := rest })

/-- The send capability: `await self.app_queue.put(message)`. Appends the
message at the back of the same queue. -/
def WebSocketCycle.send (c : WebSocketCycle) (m : Message) : WebSocketCycle :=
  { c with app_queue := c.app_queue ++ [m] }

/-- Runs the application task's awaits against the queue. Returns the
messages the application received and the final cycle, or `none` when a
receive suspends on an empty queue (the task then never completes). -/
def execApp : List AppAction → WebSocketCycle →
    Option (List Message × WebSocketCycle)
  | [], c => some ([], c)
  | AppAction.recv :: rest, c =>
    match c.receive with
    | none => none
    | some (m, c1) =>
      match execApp rest c1 with
      | none => none
      | some (ms, c2) => some (m :: ms, c2)
  | AppAction.send m :: rest, c => execApp rest (c.send m)

/-- The except-branches of `run`: WebSocketClosed sets response.status to
403, UnexpectedMessage to 500, any other BaseException to 500 (after
logging); normal completion leaves the response untouched. -/
def WebSocketCycle.applyExc (c : WebSocketCycle) (exc : Option AppException) :
    WebSocketCycle :=
  match exc with
  | none => c
  | some AppException.webSocketClosed =>
    { c with response := { c.response with status := 403 } }
  | some AppException.unexpectedMessage =>
    { c with response := { c.response with status := 500 } }
  | some AppException.other =>
    { c with response := { c.response with status := 500 } }

/-- The `run` coroutine: awaits
`app(self.request.scope, self.receive, self.send)` and catches the raised
exceptions. `none` means the application task never completes. -/
def WebSocketCycle.run (c : WebSocketCycle) (app : AppModel) :
    Option WebSocketCycle :=
  (execApp app.actions c).map (fun p => p.2.applyExc app.exception)

/-- `__call__`: stores `initial_body` on the cycle, does NOT enqueue
anything (the line `self.app_queue.put_nowait({"type": "websocket.connect"})`
is commented out in the source), creates the task for `run`, blocks on
`loop.run_until_complete`, and returns `self.response`. `none` models the
case where `run_until_complete` never returns. -/
def WebSocketCycle.call (c : WebSocketCycle) (app : AppModel)
    (initial_body : List Nat) : Option (WebSocketCycle × Response) :=
  let c1 := { c with initial_body := some initial_body }
  (c1.run app).map (fun c2 => (c2, c2.response))

/-- The content of the application queue at the moment the application
task starts running inside `__call__`: everything `__call__` does to the
cycle before `create_task`, projected to the queue. -/
def WebSocketCycle.queueAtAppStart (c : WebSocketCycle)
    (initial_body : List Nat) : List Message :=
  ({ c with initial_body := some initial_body } : WebSocketCycle).app_queue

/- Concrete inputs used by witnesses and counterexamples. -/

/-- A concrete request. -/
def req0 : WsRequest := WsRequest.mk [("path", "/chat")]

/-- A concrete cycle for a `connect` invocation (initial state CONNECTING,
the dataclass default). -/
def connectCycle : WebSocketCycle :=
  WebSocketCycle.postInit req0 "connect" "conn-1" WebSocketCycleState.CONNECTING

/-- A concrete cycle for a `message` invocation (spec: state starts at
RESPONSE). -/
def messageCycle : WebSocketCycle :=
  WebSocketCycle.postInit req0 "message" "conn-1" WebSocketCycleState.RESPONSE

/-- A concrete cycle for a `disconnect` invocation (spec: state starts at
DISCONNECTING). -/
def disconnectCycle : WebSocketCycle :=
  WebSocketCycle.postInit req0 "disconnect" "conn-1"
    WebSocketCycleState.DISCONNECTING

/-- An application that completes at once without awaiting anything. -/
def appAccept : AppModel := AppModel.mk [] none

/-- An application that rejects the connection by raising WebSocketClosed. -/
def appReject : AppModel := AppModel.mk [] (some AppException.webSocketClosed)

/-- An application that raises an arbitrary exception. -/
def appFault : AppModel := AppModel.mk [] (some AppException.other)

/-- An application whose first await is a receive. -/
def appRecvOnly : AppModel := AppModel.mk [AppAction.recv] none

/-- A concrete outbound event. -/
def m0 : Message := Message.mk "websocket.send" [104, 105]

/-- A second concrete outbound event. -/
def m1 : Message := Message.mk "websocket.send" [33]

/-- An application that sends one event and completes. -/
def appSender : AppModel := AppModel.mk [AppAction.send m0] none

/-- The connect cycle as the application task leaves it when the
application performs no awaits: only `initial_body` has been set. -/
def connectDone : WebSocketCycle :=
  { connectCycle with initial_body := some [] }

/-- The disconnect cycle as the application task leaves it when the
application performs no awaits. -/
def disconnectDone : WebSocketCycle :=
  { disconnectCycle with initial_body := some [] }

/-- The message cycle as `appSender` leaves it: `initial_body` set and the
sent event sitting in the queue. -/
def msgDone : WebSocketCycle :=
  { messageCycle with initial_body := some [7], app_queue := [m0] }

/- Helper lemmas (shared). -/

/-- The send and receive capabilities touch only the queue, and therefore
running the application task preserves every other field of the cycle. -/
theorem execApp_frame : ∀ (acts : List AppAction) (c : WebSocketCycle)
    (ms : List Message) (c2 : WebSocketCycle),
    execApp acts c = some (ms, c2) →
    c2.request = c.request ∧ c2.message_type = c.message_type ∧
    c2.connection_id = c.connection_id ∧ c2.state = c.state ∧
    c2.body = c.body ∧ c2.response = c.response ∧
    c2.initial_body = c.initial_body := by
  intro acts
  induction acts with
  | nil =>
    intro c ms c2 h
    simp [execApp] at h
    simp [h.2]
  | cons a rest ih =>
    intro c ms c2 h
    cases a with
    | recv =>
      cases hq : c.app_queue with
      | nil => simp [execApp, WebSocketCycle.receive, hq] at h
      | cons m q =>
        simp only [execApp, WebSocketCycle.receive, hq] at h
        cases hrec : execApp rest { c with app_queue := q } with
        | none => rw [hrec] at h; simp at h
        | some p =>
          rw [hrec] at h
          simp at h
          obtain ⟨hms, hc2⟩ := h
          have := ih { c with app_queue := q } p.1 p.2 (by rw [hrec])
          simpa [← hc2] using this
    | send m =>
      simp only [execApp] at h
      have := ih (c.send m) ms c2 h
      simpa [WebSocketCycle.send] using this

/-- Applying the exception mapping never changes the state, headers or
body; it rewrites only the status field. -/
theorem applyExc_frame (c : WebSocketCycle) (exc : Option AppException) :
    (c.applyExc exc).state = c.state ∧
    (c.applyExc exc).response.headers = c.response.headers ∧
    (c.applyExc exc).response.body = c.response.body ∧
    (c.applyExc exc).app_queue = c.app_queue := by
  cases exc with
  | none => simp [WebSocketCycle.applyExc]
  | some e => cases e <;> simp [WebSocketCycle.applyExc]

/-- Sending a list of messages one by one appends them to the queue. -/
theorem execApp_sends : ∀ (msgs : List Message) (rest : List AppAction)
    (c : WebSocketCycle),
    execApp (msgs.map AppAction.send ++ rest) c =
      execApp rest { c with app_queue := c.app_queue ++ msgs } := by
  intro msgs
  induction msgs with
  | nil => intro rest c; simp
  | cons m ms ih =>
    intro rest c
    simp only [List.map_cons, List.cons_append, execApp, WebSocketCycle.send,
      List.append_eq]
    rw [ih]
    simp [List.append_assoc]

/-- Receiving as many times as the queue holds returns the whole queue
content in order and leaves the queue empty. -/
theorem execApp_recvs : ∀ (q : List Message) (c : WebSocketCycle),
    execApp (List.replicate q.length AppAction.recv)
        { c with app_queue := q } =
      some (q, { c with app_queue := [] }) := by
  intro q
  induction q with
  | nil => intro c; simp [execApp]
  | cons m ms ih =>
    intro c
    simp only [List.length_cons, List.replicate_succ, execApp,
      WebSocketCycle.receive]
    rw [ih]

/-- Claim C1. Refuted as stated, and the code contradicts its own class
docstring: `__call__` injects NO ProtocolEvent into the application queue
(the `put_nowait` of the initiating event is commented out). At
application-task start the queue is empty (zero events match the
invocation's message type, not one), and an application whose first await
is a receive suspends forever, so `__call__` never returns. -/
theorem c1_no_event_injected :
    messageCycle.queueAtAppStart [104, 105] = [] ∧
    WebSocketCycle.call messageCycle appRecvOnly [104, 105] = none :=
  ⟨rfl, rfl⟩

/-- Claim C2. Refuted as stated, and the code contradicts its own class
docstring: for a `message` invocation with initial body B, the application
calling receive first obtains nothing at all — `initial_body` is stored
on the cycle but never enqueued, the queue stays empty, the receive
suspends forever and `__call__` never returns. -/
theorem c2_first_receive_suspends :
    WebSocketCycle.call messageCycle appRecvOnly [1, 2, 3] = none ∧
    ({ messageCycle with initial_body := some [1, 2, 3] }
      : WebSocketCycle).receive = none :=
  ⟨rfl, rfl⟩

/-- Claim C3, counterexample: a `connect` invocation whose application
accepts (completes without raising) returns status 200, but the final
state is CONNECTING, not HANDSHAKE. -/
theorem c3_counterexample :
    (WebSocketCycle.call connectCycle appAccept []).map
        (fun p => (p.2.status, p.1.state)) =
      some (200, WebSocketCycleState.CONNECTING) ∧
    WebSocketCycleState.CONNECTING ≠ WebSocketCycleState.HANDSHAKE :=
  ⟨rfl, by decide⟩

/-- Claim C3, amended: for every `connect` invocation whose application
completes without raising, the result status is 200 and the final state
equals the construction state CONNECTING (the code never writes `state`,
so it never reaches HANDSHAKE). -/
theorem c3_connect_accept_amended (req : WsRequest) (cid : String)
    (app : AppModel) (b : List Nat) (ms : List Message) (c2 : WebSocketCycle)
    (hexc : app.exception = none)
    (h : execApp app.actions
        { WebSocketCycle.postInit req "connect" cid
            WebSocketCycleState.CONNECTING with initial_body := some b } =
      some (ms, c2)) :
    WebSocketCycle.call
        (WebSocketCycle.postInit req "connect" cid
          WebSocketCycleState.CONNECTING) app b =
      some (c2, c2.response) ∧
    c2.response.status = 200 ∧ c2.state = WebSocketCycleState.CONNECTING := by
  have hf := execApp_frame app.actions _ ms c2 h
  refine ⟨?_, ?_, ?_⟩
  · simp [WebSocketCycle.call, WebSocketCycle.run, h, hexc,
      WebSocketCycle.applyExc]
  · have hr : c2.response = Response.mk 200 [] [] := by
      simpa [WebSocketCycle.postInit] using hf.2.2.2.2.2.1
    simp [hr]
  · simpa [WebSocketCycle.postInit] using hf.2.2.2.1

/-- Claim C3 witness: the amended statement at a concrete accepting
application. -/
theorem c3_amended_witness :
    WebSocketCycle.call connectCycle appAccept [] =
      some (connectDone, connectDone.response) ∧
    connectDone.response.status = 200 ∧
    connectDone.state = WebSocketCycleState.CONNECTING :=
  c3_connect_accept_amended req0 "conn-1" appAccept [] [] connectDone rfl rfl

/-- Claim C4, counterexample: a `connect` invocation whose application
raises WebSocketClosed returns status 403, but the final state is
CONNECTING, not CLOSED. -/
theorem c4_counterexample :
    (WebSocketCycle.call connectCycle appReject []).map
        (fun p => (p.2.status, p.1.state)) =
      some (403, WebSocketCycleState.CONNECTING) ∧
    WebSocketCycleState.CONNECTING ≠ WebSocketCycleState.CLOSED :=
  ⟨rfl, by decide⟩

/-- Claim C4, amended: for every `connect` invocation whose application
task raises WebSocketClosed, the result status is 403 and the final state
equals the construction state CONNECTING (the code never writes `state`,
so it never reaches CLOSED). -/
theorem c4_connect_reject_amended (req : WsRequest) (cid : String)
    (app : AppModel) (b : List Nat) (ms : List Message) (c2 : WebSocketCycle)
    (hexc : app.exception = some AppException.webSocketClosed)
    (h : execApp app.actions
        { WebSocketCycle.postInit req "connect" cid
            WebSocketCycleState.CONNECTING with initial_body := some b } =
      some (ms, c2)) :
    WebSocketCycle.call
        (WebSocketCycle.postInit req "connect" cid
          WebSocketCycleState.CONNECTING) app b =
      some (c2.applyExc app.exception,
        (c2.applyExc app.exception).response) ∧
    (c2.applyExc app.exception).response.status = 403 ∧
    (c2.applyExc app.exception).state = WebSocketCycleState.CONNECTING := by
  have hf := execApp_frame app.actions _ ms c2 h
  refine ⟨?_, ?_, ?_⟩
  · simp [WebSocketCycle.call, WebSocketCycle.run, h]
  · simp [hexc, WebSocketCycle.applyExc]
  · have hs : (c2.applyExc app.exception).state = c2.state :=
      (applyExc_frame c2 app.exception).1
    rw [hs]
    simpa [WebSocketCycle.postInit] using hf.2.2.2.1

/-- Claim C4 witness: the amended statement at a concrete rejecting
application. -/
theorem c4_amended_witness :
    WebSocketCycle.call connectCycle appReject [] =
      some (connectDone.applyExc appReject.exception,
        (connectDone.applyExc appReject.exception).response) ∧
    (connectDone.applyExc appReject.exception).response.status = 403 ∧
    (connectDone.applyExc appReject.exception).state =
      WebSocketCycleState.CONNECTING :=
  c4_connect_reject_amended req0 "conn-1" appReject [] [] connectDone rfl rfl

/-- Claim C5: for every invocation whose application task terminates (its
awaits all complete), `__call__` returns a result rather than propagating
the failure, and the status is 403 for WebSocketClosed, 500 for
UnexpectedMessage, 500 for any other exception, and the untouched
response status on normal completion — independently of message_type
and of the cycle's other fields. -/
theorem c5_failures_mapped (c : WebSocketCycle) (app : AppModel)
    (b : List Nat) (ms : List Message) (c2 : WebSocketCycle)
    (h : execApp app.actions { c with initial_body := some b } =
      some (ms, c2)) :
    WebSocketCycle.call c app b =
      some (c2.applyExc app.exception,
        (c2.applyExc app.exception).response) ∧
    (c2.applyExc app.exception).response.status =
      (match app.exception with
       | none => c.response.status
       | some AppException.webSocketClosed => 403
       | some AppException.unexpectedMessage => 500
       | some AppException.other => 500) := by
  have hf := execApp_frame app.actions _ ms c2 h
  constructor
  · simp [WebSocketCycle.call, WebSocketCycle.run, h]
  · cases hexc : app.exception with
    | none =>
      have hr : c2.response = c.response := by simpa using hf.2.2.2.2.2.1
      simp [WebSocketCycle.applyExc, hr]
    | some e => cases e <;> simp [WebSocketCycle.applyExc]

/-- Claim C5 witness: an application raising an arbitrary exception on a
concrete `connect` invocation yields status 500 and no escaped
exception. -/
theorem c5_witness :
    WebSocketCycle.call connectCycle appFault [] =
      some (connectDone.applyExc appFault.exception,
        (connectDone.applyExc appFault.exception).response) ∧
    (connectDone.applyExc appFault.exception).response.status = 500 :=
  c5_failures_mapped connectCycle appFault [] [] connectDone rfl

/-- Claim C6: the event channel is strict FIFO with no drops — for every
list of events sent through the send capability starting from an empty
queue, that many receive-capability calls return exactly those events in
enqueue order and leave the queue empty. -/
theorem c6_fifo (c : WebSocketCycle) (msgs : List Message)
    (h : c.app_queue = []) :
    execApp (msgs.map AppAction.send ++
        List.replicate msgs.length AppAction.recv) c =
      some (msgs, { c with app_queue := [] }) := by
  rw [execApp_sends, h]
  simpa using execApp_recvs msgs c

/-- Claim C6 witness: two concrete events sent then received come back in
order. -/
theorem c6_fifo_witness :
    execApp ([m0, m1].map AppAction.send ++
        List.replicate ([m0, m1] : List Message).length AppAction.recv)
        connectCycle =
      some ([m0, m1], { connectCycle with app_queue := [] }) :=
  c6_fifo connectCycle [m0, m1] rfl

/-- Claim C7, counterexample: a `disconnect` invocation (constructed in
the DISCONNECTING state) whose application completes without raising
returns status 200, but the final state is DISCONNECTING, not CLOSED. -/
theorem c7_counterexample :
    (WebSocketCycle.call disconnectCycle appAccept []).map
        (fun p => (p.2.status, p.1.state)) =
      some (200, WebSocketCycleState.DISCONNECTING) ∧
    WebSocketCycleState.DISCONNECTING ≠ WebSocketCycleState.CLOSED :=
  ⟨rfl, by decide⟩

/-- Claim C7, amended: for every `disconnect` invocation (constructed in
the DISCONNECTING state) whose application completes without raising, the
result status is 200 and the final state remains DISCONNECTING (the code
never writes `state`, so it never reaches CLOSED). -/
theorem c7_disconnect_amended (req : WsRequest) (cid : String)
    (app : AppModel) (b : List Nat) (ms : List Message) (c2 : WebSocketCycle)
    (hexc : app.exception = none)
    (h : execApp app.actions
        { WebSocketCycle.postInit req "disconnect" cid
            WebSocketCycleState.DISCONNECTING with initial_body := some b } =
      some (ms, c2)) :
    WebSocketCycle.call
        (WebSocketCycle.postInit req "disconnect" cid
          WebSocketCycleState.DISCONNECTING) app b =
      some (c2, c2.response) ∧
    c2.response.status = 200 ∧
    c2.state = WebSocketCycleState.DISCONNECTING := by
  have hf := execApp_frame app.actions _ ms c2 h
  refine ⟨?_, ?_, ?_⟩
  · simp [WebSocketCycle.call, WebSocketCycle.run, h, hexc,
      WebSocketCycle.applyExc]
  · have hr : c2.response = Response.mk 200 [] [] := by
      simpa [WebSocketCycle.postInit] using hf.2.2.2.2.2.1
    simp [hr]
  · simpa [WebSocketCycle.postInit] using hf.2.2.2.1

/-- Claim C7 witness: the amended statement at a concrete well-behaved
application. -/
theorem c7_amended_witness :
    WebSocketCycle.call disconnectCycle appAccept [] =
      some (disconnectDone, disconnectDone.response) ∧
    disconnectDone.response.status = 200 ∧
    disconnectDone.state = WebSocketCycleState.DISCONNECTING :=
  c7_disconnect_amended req0 "conn-1" appAccept [] [] disconnectDone rfl rfl

/-- Claim C8: `state` is never written after construction — `__call__`
(for every application behaviour and message_type), the send capability,
the receive capability and the exception mapping all leave `state`
exactly as constructed. -/
theorem c8_state_frame (c : WebSocketCycle) (app : AppModel) (b : List Nat)
    (m : Message) :
    (∀ c2 r, WebSocketCycle.call c app b = some (c2, r) →
      c2.state = c.state) ∧
    (c.send m).state = c.state ∧
    (∀ e c2, c.receive = some (e, c2) → c2.state = c.state) ∧
    (∀ exc, (c.applyExc exc).state = c.state) := by
  refine ⟨?_, ?_, ?_, ?_⟩
  · intro c2 r hcall
    simp only [WebSocketCycle.call, WebSocketCycle.run] at hcall
    cases hexec : execApp app.actions { c with initial_body := some b } with
    | none => rw [hexec] at hcall; simp at hcall
    | some p =>
      rw [hexec] at hcall
      simp at hcall
      have hf := execApp_frame app.actions _ p.1 p.2 (by rw [hexec])
      have hs := (applyExc_frame p.2 app.exception).1
      rw [← hcall.1, hs]
      simpa using hf.2.2.2.1
  · rfl
  · intro e c2 hrec
    cases hq : c.app_queue with
    | nil => simp [WebSocketCycle.receive, hq] at hrec
    | cons x xs =>
      simp only [WebSocketCycle.receive, hq, Option.some.injEq,
        Prod.mk.injEq] at hrec
      rw [← hrec.2]
  · intro exc
    exact (applyExc_frame c exc).1

/-- Claim C8 witness: the state frame at a concrete invocation, a
concrete send. -/
theorem c8_witness :
    connectDone.state = connectCycle.state ∧
    (connectCycle.send m0).state = connectCycle.state :=
  ⟨(c8_state_frame connectCycle appAccept [] m0).1 connectDone
      connectDone.response rfl,
    (c8_state_frame connectCycle appAccept [] m0).2.1⟩

/-- Claim C9: send and receive operate on one and the same queue — on an
empty queue, sending an event and then receiving returns that very event
(and restores the cycle), and sending never touches the response. -/
theorem c9_same_queue (c : WebSocketCycle) (e : Message)
    (h : c.app_queue = []) :
    (c.send e).receive = some (e, c) ∧
    (c.send e).response = c.response := by
  obtain ⟨req, mt, cid, st, q, bd, rsp, ib⟩ := c
  subst h
  simp [WebSocketCycle.send, WebSocketCycle.receive]

/-- Claim C9 witness: the send-then-receive round trip at a concrete
cycle and event. -/
theorem c9_witness :
    (connectCycle.send m0).receive = some (m0, connectCycle) ∧
    (connectCycle.send m0).response = connectCycle.response :=
  c9_same_queue connectCycle m0 rfl

/-- Claim C10: for every invocation and message_type, when the
application task completes without raising, the returned response is
exactly Response(200, [], b"") regardless of what the application sent;
and the exception mapping modifies only the status field, never the
headers or the body. -/
theorem c10_normal_response (req : WsRequest) (mt cid : String)
    (st : WebSocketCycleState) (app : AppModel) (b : List Nat)
    (ms : List Message) (c2 : WebSocketCycle)
    (hexc : app.exception = none)
    (h : execApp app.actions
        { WebSocketCycle.postInit req mt cid st with
            initial_body := some b } = some (ms, c2)) :
    WebSocketCycle.call (WebSocketCycle.postInit req mt cid st) app b =
      some (c2, Response.mk 200 [] []) ∧
    (∀ (d : WebSocketCycle) (exc : Option AppException),
      (d.applyExc exc).response.headers = d.response.headers ∧
      (d.applyExc exc).response.body = d.response.body) := by
  have hf := execApp_frame app.actions _ ms c2 h
  constructor
  · have hr : c2.response = Response.mk 200 [] [] := by
      simpa [WebSocketCycle.postInit] using hf.2.2.2.2.2.1
    simp [WebSocketCycle.call, WebSocketCycle.run, h, hexc,
      WebSocketCycle.applyExc, hr]
  · intro d exc
    exact ⟨(applyExc_frame d exc).2.1, (applyExc_frame d exc).2.2.1⟩

/-- Claim C10 witness: a concrete application that sends one event and
completes still yields exactly Response(200, [], b""). -/
theorem c10_witness :
    WebSocketCycle.call messageCycle appSender [7] =
      some (msgDone, Response.mk 200 [] []) :=
  (c10_normal_response req0 "message" "conn-1" WebSocketCycleState.RESPONSE
    appSender [7] [] msgDone rfl rfl).1

end Mangum
